import Mathlib

/-!
Verification development for the A365 proactive scheduler subsystem:
the credential resolver, the three-step token-exchange client, the
PostgreSQL-backed task store, and the scheduler loop.

Python source files embedded here:
  * `a365_agent/proactive/auth.py` (`AgentCredentials`, `ProactiveTokenProvider`)
  * `a365_agent/proactive/scheduler.py` (`ProactiveScheduler`, `_render_task_prompt`)
  * `a365_agent/storage/pg_storage.py` (`PostgresStorage` queue / state / task ops)

Database tables are embedded as lists of row structures; each SQL statement
becomes a pure function on those lists (one statement = one atomic step, which
is how PostgreSQL executes a single `UPDATE ... RETURNING`).  Empty strings
model SQL `''` / Python falsy strings; `Option Nat` models nullable
timestamps, with `Nat` instants ordered like SQL timestamps.  Python
exceptions are embedded as `Except`; HTTP traffic is embedded as an oracle
from request identity to response, plus an explicit trace of issued requests.
-/

namespace A365

/-! ## Credential resolver (`a365_agent/proactive/auth.py`) -/

/-- Embeds the `AgentCredentials` dataclass: three agent-specific fields
read from the `agent_registry` row and four tenant-wide fields read from
the environment (the audience defaults to a non-empty well-known id). -/
structure AgentCredentials where
  agent_user_id : String
  agent_identity_client_id : String
  agent_user_object_id : String
  blueprint_client_id : String
  blueprint_client_secret : String
  tenant_id : String
  mcp_audience : String
  deriving DecidableEq, Repr

/-- Embeds `AgentCredentials.validate`: appends a label for each checked
field that is empty, in source order.  The source checks exactly five
fields: the three environment-derived ones and two of the DB-derived ones
(`agent_user_id` and `mcp_audience` are not checked). -/
def AgentCredentials.validate (c : AgentCredentials) : List String :=
  (if c.blueprint_client_id = "" then
    ["CONNECTIONS__SERVICE_CONNECTION__SETTINGS__CLIENTID (env)"] else []) ++
  (if c.blueprint_client_secret = "" then
    ["CONNECTIONS__SERVICE_CONNECTION__SETTINGS__CLIENTSECRET (env)"] else []) ++
  (if c.tenant_id = "" then
    ["CONNECTIONS__SERVICE_CONNECTION__SETTINGS__TENANTID (env)"] else []) ++
  (if c.agent_identity_client_id = "" then ["agent_identity_client_id (DB)"] else []) ++
  (if c.agent_user_object_id = "" then ["agent_user_object_id (DB)"] else [])

/-- All seven fields of the credential bundle are present (non-empty);
this is the presence notion the specification's claim quantifies over
(four identity-derived fields plus three tenant-wide fields). -/
def AgentCredentials.sevenComplete (c : AgentCredentials) : Prop :=
  c.agent_user_id ≠ "" ∧ c.agent_identity_client_id ≠ "" ∧
  c.agent_user_object_id ≠ "" ∧ c.blueprint_client_id ≠ "" ∧
  c.blueprint_client_secret ≠ "" ∧ c.tenant_id ≠ "" ∧ c.mcp_audience ≠ ""

instance (c : AgentCredentials) : Decidable c.sevenComplete := by
  unfold AgentCredentials.sevenComplete; infer_instance

/-- The five fields that `validate` actually checks are all present. -/
def AgentCredentials.fiveComplete (c : AgentCredentials) : Prop :=
  c.blueprint_client_id ≠ "" ∧ c.blueprint_client_secret ≠ "" ∧
  c.tenant_id ≠ "" ∧ c.agent_identity_client_id ≠ "" ∧ c.agent_user_object_id ≠ ""

instance (c : AgentCredentials) : Decidable c.fiveComplete := by
  unfold AgentCredentials.fiveComplete; infer_instance

/-! ## Token-exchange client (`ProactiveTokenProvider`)

The three HTTP POSTs of the Agent User Impersonation flow are embedded as
an oracle from the step identity to the provider's response.  Each step
function returns the trace of requests it issued together with the Python
outcome (`Except.error` = raised `RuntimeError`).  The token arguments
`t1` / `t2` are threaded exactly as in the source, where they form the
`client_assertion` / `user_federated_identity_credential` payload fields. -/

/-- The three requests of the flow, in source order: `_get_t1`, `_get_t2`,
`_get_mcp_token`. -/
inductive Step where
  | t1
  | t2
  | mcp
  deriving DecidableEq, Repr

/-- Response of the identity provider to one token request: HTTP status
plus the two JSON fields the source reads (`access_token`,
`error_description`). -/
structure TokenResp where
  status : Nat
  access_token : String
  error_description : String
  deriving DecidableEq, Repr

/-- HTTP behaviour of the identity provider during one flow. -/
def HttpOracle : Type := Step → TokenResp

/-- Embeds `_get_t1`: posts the client-credentials request and raises
`RuntimeError` with the provider's error text unless the status is 200. -/
def get_t1 (resp : HttpOracle) : List Step × Except String String :=
  let r := resp Step.t1
  if r.status ≠ 200 then
    ([Step.t1], Except.error ("T1 failed: " ++ r.error_description))
  else
    ([Step.t1], Except.ok r.access_token)

/-- Embeds `_get_t2`: posts the JWT-bearer request carrying `t1` as the
client assertion; raises unless the status is 200. -/
def get_t2 (resp : HttpOracle) (t1 : String) : List Step × Except String String :=
  let _ := t1
  let r := resp Step.t2
  if r.status ≠ 200 then
    ([Step.t2], Except.error ("T2 failed: " ++ r.error_description))
  else
    ([Step.t2], Except.ok r.access_token)

/-- Embeds `_get_mcp_token`: posts the `user_fic` request carrying `t1` as
client assertion and `t2` as the federated-identity credential; raises
unless the status is 200. -/
def get_mcp_token (resp : HttpOracle) (t1 t2 : String) :
    List Step × Except String String :=
  let _ := (t1, t2)
  let r := resp Step.mcp
  if r.status ≠ 200 then
    ([Step.mcp], Except.error ("MCP token failed: " ++ r.error_description))
  else
    ([Step.mcp], Except.ok r.access_token)

/-- Embeds `_agent_user_impersonation_flow`: runs the three steps in
sequence inside one session; a raise at any step propagates immediately,
so no later request is issued. -/
def agent_user_impersonation_flow (resp : HttpOracle) :
    List Step × Except String String :=
  match get_t1 resp with
  | (tr1, Except.error m) => (tr1, Except.error m)
  | (tr1, Except.ok tok1) =>
    match get_t2 resp tok1 with
    | (tr2, Except.error m) => (tr1 ++ tr2, Except.error m)
    | (tr2, Except.ok tok2) =>
      match get_mcp_token resp tok1 tok2 with
      | (tr3, res) => (tr1 ++ tr2 ++ tr3, res)

/-- Embeds `ProactiveTokenProvider.acquire_mcp_token`: re-validates the
credentials and raises a `RuntimeError` naming the missing fields before
issuing any request; otherwise runs the impersonation flow. -/
def acquire_mcp_token (creds : AgentCredentials) (resp : HttpOracle) :
    List Step × Except String String :=
  if creds.validate ≠ [] then
    ([], Except.error ("Cannot acquire token for " ++ creds.agent_user_id ++
      " – missing: " ++ String.intercalate ", " creds.validate))
  else
    agent_user_impersonation_flow resp

/-- Concrete oracle where step 1 succeeds and step 2 returns HTTP 400. -/
def respFailT2 : HttpOracle := fun s =>
  match s with
  | Step.t1 => { status := 200, access_token := "tok1", error_description := "" }
  | Step.t2 => { status := 400, access_token := "", error_description := "bad_request" }
  | Step.mcp => { status := 200, access_token := "tok3", error_description := "" }

/-! ## Task queue (`pg_storage.py`: `enqueue_task` / `dequeue_tasks` /
`complete_task`)

Rows of the `task_queue` table.  `payload` / `result` hold the serialized
JSON text the source passes through `json.dumps`. -/

/-- One row of `agent_storage.task_queue`. -/
structure QueueRow where
  id : Nat
  task_id : String
  source_agent : String
  target_agent : String
  task_type : String
  payload : String
  status : String
  result : String
  created_at : Nat
  updated_at : Nat
  deriving DecidableEq, Repr

instance : Inhabited QueueRow :=
  ⟨{ id := 0, task_id := "", source_agent := "", target_agent := "",
     task_type := "", payload := "", status := "", result := "",
     created_at := 0, updated_at := 0 }⟩

/-- Embeds `enqueue_task`'s INSERT.  The row id is the serial PK the
database assigns and `"pending"` is the schema's column default for
`status` (the INSERT names neither column); the spec fixes that default:
entries are created pending. -/
def enqueue_task (id : Nat) (task_id source_agent target_agent task_type payload : String)
    (now : Nat) (db : List QueueRow) : List QueueRow :=
  db ++ [{ id := id, task_id := task_id, source_agent := source_agent,
           target_agent := target_agent, task_type := task_type,
           payload := payload, status := "pending", result := "",
           created_at := now, updated_at := now }]

instance : IsTotal QueueRow (fun a b => a.created_at ≤ b.created_at) :=
  ⟨fun a b => Nat.le_total a.created_at b.created_at⟩

instance : IsTrans QueueRow (fun a b => a.created_at ≤ b.created_at) :=
  ⟨fun _ _ _ hab hbc => Nat.le_trans hab hbc⟩

/-- The inner subquery of `dequeue_tasks`: `SELECT id FROM task_queue
WHERE target_agent = $1 AND status = 'pending' ORDER BY created_at ASC
LIMIT $2 FOR UPDATE SKIP LOCKED` (here selecting the rows themselves). -/
def dequeue_select (target_agent : String) (limit : Nat)
    (db : List QueueRow) : List QueueRow :=
  (List.insertionSort (fun a b => a.created_at ≤ b.created_at)
    (db.filter (fun r => decide (r.target_agent = target_agent ∧
      r.status = "pending")))).take limit

/-- Embeds `dequeue_tasks`'s single `UPDATE ... WHERE id IN (SELECT ...)
RETURNING *` statement: select up to `limit` pending rows for the target
agent, oldest first, set them to `in_progress`, and return the updated
rows together with the updated table.  The statement is atomic in
PostgreSQL, so concurrent executions serialize; `SKIP LOCKED` only
removes rows an uncommitted concurrent claimer holds from the SELECT,
which the serialized embedding already reflects. -/
def dequeue_tasks (target_agent : String) (limit : Nat) (now : Nat)
    (db : List QueueRow) : List QueueRow × List QueueRow :=
  let selected := dequeue_select target_agent limit db
  let ids := selected.map QueueRow.id
  (selected.map (fun r => { r with status := "in_progress", updated_at := now }),
   db.map (fun r =>
     if r.id ∈ ids then { r with status := "in_progress", updated_at := now } else r))

/-- Embeds `complete_task`'s UPDATE: unconditionally overwrites status and
result of every row whose `task_id` matches; the current status is not
inspected. -/
def complete_task (task_id status result : String) (now : Nat)
    (db : List QueueRow) : List QueueRow :=
  db.map (fun r =>
    if r.task_id = task_id then
      { r with status := status, result := result, updated_at := now }
    else r)

/-- A forward move of the queue-status state machine
`pending → in_progress → {completed | failed}`: the status is unchanged or
advances strictly along the diagram. -/
def forwardStep (old new : String) : Prop :=
  old = new ∨
  (old = "pending" ∧ new = "in_progress") ∨
  (old = "pending" ∧ (new = "completed" ∨ new = "failed")) ∨
  (old = "in_progress" ∧ (new = "completed" ∨ new = "failed"))

instance (old new : String) : Decidable (forwardStep old new) := by
  unfold forwardStep; infer_instance

/-- Concrete queue table: two pending handoff rows for agent `b@x.com`. -/
def dbQ : List QueueRow :=
  [{ id := 1, task_id := "t-1", source_agent := "a@x.com",
     target_agent := "b@x.com", task_type := "handoff", payload := "",
     status := "pending", result := "", created_at := 1, updated_at := 1 },
   { id := 2, task_id := "t-2", source_agent := "a@x.com",
     target_agent := "b@x.com", task_type := "handoff", payload := "",
     status := "pending", result := "", created_at := 2, updated_at := 2 }]

/-- Concrete queue table with a single pending row. -/
def dbC5 : List QueueRow :=
  [{ id := 1, task_id := "t-1", source_agent := "a@x.com",
     target_agent := "b@x.com", task_type := "handoff", payload := "",
     status := "pending", result := "", created_at := 1, updated_at := 1 }]

/-! ## Shared state (`pg_storage.py`: `get_state`) -/

/-- One row of `agent_storage.shared_state`; `value` holds the serialized
JSON text and `expires_at` the nullable expiry instant. -/
structure StateRow where
  key : String
  value : String
  owner_agent : String
  expires_at : Option Nat
  deriving DecidableEq, Repr

/-- Embeds `get_state`'s `SELECT value ... WHERE key = $1 AND (expires_at
IS NULL OR expires_at > NOW())`: the row is returned only when it has no
expiry or its expiry is still strictly in the future; an expired row is
treated as absent even though it is still physically in the table. -/
def get_state (key : String) (now : Nat) (db : List StateRow) : Option String :=
  (db.find? (fun r => decide (r.key = key) &&
    match r.expires_at with
    | none => true
    | some e => decide (now < e))).map StateRow.value

/-- Concrete shared-state table: one row whose expiry instant is 10. -/
def dbState : List StateRow :=
  [{ key := "k", value := "v", owner_agent := "a@x.com", expires_at := some 10 }]

/-! ## Scheduled tasks (`pg_storage.py`: `update_scheduled_task_result`,
`scheduler.py`: `_execute_task`) -/

/-- One row of `agent_storage.scheduled_tasks`. -/
structure SchedTaskRow where
  id : Nat
  task_id : String
  agent_user_id : String
  task_name : String
  task_prompt : String
  is_enabled : Bool
  last_run_at : Option Nat
  last_status : String
  last_result : String
  created_at : Nat
  updated_at : Nat
  deriving DecidableEq, Repr

instance : Inhabited SchedTaskRow :=
  ⟨{ id := 0, task_id := "", agent_user_id := "", task_name := "",
     task_prompt := "", is_enabled := false, last_run_at := none,
     last_status := "", last_result := "", created_at := 0, updated_at := 0 }⟩

/-- Python string slicing `s[:n]`. -/
def pyTruncate (s : String) (n : Nat) : String :=
  String.mk (s.data.take n)

/-- Embeds `update_scheduled_task_result`'s UPDATE: sets `last_run_at` to
now, overwrites `last_status` and `last_result` (the latter truncated to
2000 characters by the `result_text[:2000]` in the statement's argument)
on every row whose `task_id` matches. -/
def update_scheduled_task_result (task_id status result_text : String)
    (now : Nat) (db : List SchedTaskRow) : List SchedTaskRow :=
  db.map (fun r =>
    if r.task_id = task_id then
      { r with last_run_at := some now, last_status := status,
               last_result := pyTruncate result_text 2000, updated_at := now }
    else r)

/-- Embeds the outcome computation of `_execute_task`: a normal return of
`agent.run` gives status `"success"` and the extracted response text; a
raise gives status `"error"` and the exception text. -/
def execute_task_outcome : Except String String → String × String
  | Except.ok response => ("success", response)
  | Except.error e => ("error", e)

/-- Embeds the persistence step of `_execute_task`: the outcome is written
through `update_scheduled_task_result` with the scheduler-side truncation
`response[:2000]` applied to the result argument. -/
def execute_task_persist (runResult : Except String String) (task_id : String)
    (now : Nat) (db : List SchedTaskRow) : List SchedTaskRow :=
  let sr := execute_task_outcome runResult
  update_scheduled_task_result task_id sr.1 (pyTruncate sr.2 2000) now db

/-- Concrete scheduled-task table with one enabled task that has never
run. -/
def dbSched : List SchedTaskRow :=
  [{ id := 1, task_id := "st-1", agent_user_id := "a@x.com",
     task_name := "daily_note", task_prompt := "Write a note",
     is_enabled := true, last_run_at := none, last_status := "",
     last_result := "", created_at := 1, updated_at := 1 }]

/-! ## Scheduler tick (`scheduler.py`: `ProactiveScheduler._tick`) -/

/-- One row returned by `get_all_agents_with_tasks`. -/
structure AgentRegistryRow where
  agent_user_id : String
  manager_email : String
  manager_name : String
  instructions : String
  agent_identity_client_id : String
  agent_user_object_id : String
  deriving DecidableEq, Repr

/-- Embeds the per-agent loop of `_tick`.  `proc` is the behaviour of
`_process_agent` for each row (credential building, token exchange,
session init and task execution); `Except.error` models a raised
exception.  The `try/except` around each call is embedded by recording
the outcome in the result list instead of binding monadically — a bind
would short-circuit the loop, which is exactly what the source's
per-agent boundary prevents. -/
def tick_process_agents (agents : List AgentRegistryRow)
    (proc : AgentRegistryRow → Except String Unit) :
    List (String × Except String Unit) :=
  match agents with
  | [] => []
  | a :: rest => (a.agent_user_id, proc a) :: tick_process_agents rest proc

/-- Two concrete eligible registry rows. -/
def agentRowA : AgentRegistryRow :=
  { agent_user_id := "a@x.com", manager_email := "m@x.com",
    manager_name := "M", instructions := "help", agent_identity_client_id := "cidA",
    agent_user_object_id := "oidA" }

/-- Second concrete eligible registry row. -/
def agentRowB : AgentRegistryRow :=
  { agent_user_id := "b@x.com", manager_email := "m@x.com",
    manager_name := "M", instructions := "help", agent_identity_client_id := "cidB",
    agent_user_object_id := "oidB" }

/-- Concrete behaviour of `_process_agent` that raises for agent
`a@x.com` and succeeds for every other agent. -/
def procFailA : AgentRegistryRow → Except String Unit := fun a =>
  if a.agent_user_id = "a@x.com" then Except.error "boom" else Except.ok ()

/-- Concrete running-flag history: `stop()` is issued during the second
sleep slice, so checks 0 and 1 see the flag set and every later check
sees it cleared. -/
def runFlagEx : Nat → Bool := fun i => decide (i < 2)

/-! ## Scheduler sleep loop (`scheduler.py`: `start` / `stop`)

The inter-tick sleep `for _ in range(self.interval): if not self._running:
break; await asyncio.sleep(1)` is embedded as a function counting the
executed one-second sleeps.  `running i` is the value of the
`self._running` flag observed by the check performed after `i` completed
sleeps; `stop()` clears the flag, and a cleared flag never becomes true
again during the wait, which is the monotonicity hypothesis below. -/

/-- Number of one-second sleeps the slice loop executes, starting at check
index `i` with `fuel` iterations of the `range` left. -/
def sleep_slices (fuel : Nat) (running : Nat → Bool) (i : Nat) : Nat :=
  match fuel with
  | 0 => 0
  | Nat.succ f => if running i then 1 + sleep_slices f running (i + 1) else 0

/-- The whole inter-tick sleep of `start`. -/
def start_sleep (interval : Nat) (running : Nat → Bool) : Nat :=
  sleep_slices interval running 0

/-! ## Prompt rendering (`scheduler.py`: `_render_task_prompt`)

`str.format` is embedded for the subset of the format-string language the
templates can reach through this call site: literal text, escaped braces
`\x7b\x7b` / `\x7d\x7d`, and simple replacement fields with no conversion
or format spec.  A named field is looked up among the keyword arguments;
an empty or all-digit field is positional and raises `IndexError`
because the call passes no positional arguments; an unmatched brace
raises `ValueError`; an unknown name raises `KeyError`. -/

/-- The Python exceptions `str.format` raises at this call site. -/
inductive FmtError where
  | keyError : String → FmtError
  | indexError : FmtError
  | valueError : FmtError
  deriving DecidableEq, Repr

/-- Resolution of one replacement field against the keyword arguments. -/
def resolve_field (kwargs : List (String × String)) (f : List Char) :
    Except FmtError String :=
  if f.all Char.isDigit then Except.error FmtError.indexError
  else
    match kwargs.lookup (String.mk f) with
    | some v => Except.ok v
    | none => Except.error (FmtError.keyError (String.mk f))

/-- Parser state of the format scanner. -/
inductive FmtState where
  | normal
  | afterLBrace
  | inField : List Char → FmtState
  | afterRBrace
  deriving DecidableEq, Repr

/-- The format scanner: one pass over the template characters. -/
def fmt_loop (kwargs : List (String × String)) :
    List Char → FmtState → Except FmtError String
  | [], FmtState.normal => Except.ok ""
  | [], FmtState.afterLBrace => Except.error FmtError.valueError
  | [], FmtState.inField _ => Except.error FmtError.valueError
  | [], FmtState.afterRBrace => Except.error FmtError.valueError
  | c :: cs, FmtState.normal =>
    if c = '{' then fmt_loop kwargs cs FmtState.afterLBrace
    else if c = '}' then fmt_loop kwargs cs FmtState.afterRBrace
    else (fun s => c.toString ++ s) <$> fmt_loop kwargs cs FmtState.normal
  | c :: cs, FmtState.afterLBrace =>
    if c = '{' then (fun s => "\x7b" ++ s) <$> fmt_loop kwargs cs FmtState.normal
    else if c = '}' then
      match resolve_field kwargs [] with
      | Except.error e => Except.error e
      | Except.ok v => (fun s => v ++ s) <$> fmt_loop kwargs cs FmtState.normal
    else fmt_loop kwargs cs (FmtState.inField [c])
  | c :: cs, FmtState.inField f =>
    if c = '}' then
      match resolve_field kwargs f with
      | Except.error e => Except.error e
      | Except.ok v => (fun s => v ++ s) <$> fmt_loop kwargs cs FmtState.normal
    else if c = '{' then Except.error FmtError.valueError
    else fmt_loop kwargs cs (FmtState.inField (f ++ [c]))
  | c :: cs, FmtState.afterRBrace =>
    if c = '}' then (fun s => "\x7d" ++ s) <$> fmt_loop kwargs cs FmtState.normal
    else Except.error FmtError.valueError

/-- Embeds `task_prompt.format(...)` for the given keyword arguments. -/
def py_format (template : String) (kwargs : List (String × String)) :
    Except FmtError String :=
  fmt_loop kwargs template.data FmtState.normal

/-- The keyword arguments `_render_task_prompt` passes to `format`:
`target_email` aliases the manager email and `timestamp` is the current
UTC time rendered to seconds. -/
def render_kwargs (manager_email agent_upn timestamp : String) :
    List (String × String) :=
  [("manager_email", manager_email), ("target_email", manager_email),
   ("agent_upn", agent_upn), ("timestamp", timestamp)]

/-- Embeds `_render_task_prompt`: formats the template; only `KeyError`
is caught (returning the raw template); any other exception propagates. -/
def render_task_prompt (task_prompt manager_email agent_upn timestamp : String) :
    Except FmtError String :=
  match py_format task_prompt (render_kwargs manager_email agent_upn timestamp) with
  | Except.ok r => Except.ok r
  | Except.error (FmtError.keyError _) => Except.ok task_prompt
  | Except.error e => Except.error e

/-! ## Theorems -/

/-- C4 counterexample: a credential bundle whose `agent_user_id` is empty
while the five checked fields are present.  `validate` returns the empty
list even though not all seven required fields are present, refuting the
claimed "empty iff all seven present" equivalence. -/
theorem validate_seven_fields_counterexample :
    (AgentCredentials.validate
      { agent_user_id := ""
        agent_identity_client_id := "cid"
        agent_user_object_id := "oid"
        blueprint_client_id := "bp"
        blueprint_client_secret := "sec"
        tenant_id := "tid"
        mcp_audience := "aud" } = []) ∧
    ¬ AgentCredentials.sevenComplete
      { agent_user_id := ""
        agent_identity_client_id := "cid"
        agent_user_object_id := "oid"
        blueprint_client_id := "bp"
        blueprint_client_secret := "sec"
        tenant_id := "tid"
        mcp_audience := "aud" } := by
  constructor
  · rfl
  · intro h
    exact h.1 rfl

/-- C4 (amended): `validate` returns exactly the labels of the missing
fields among the five it checks — three tenant-wide fields and two
identity-derived fields — and returns the empty list iff those five
fields are all present; `agent_user_id` and `mcp_audience` are never
checked. -/
theorem validate_exactly_five_fields (c : AgentCredentials) :
    (c.validate = [] ↔ c.fiveComplete) ∧
    (∀ lbl, lbl ∈ c.validate ↔
      (lbl = "CONNECTIONS__SERVICE_CONNECTION__SETTINGS__CLIENTID (env)" ∧
        c.blueprint_client_id = "") ∨
      (lbl = "CONNECTIONS__SERVICE_CONNECTION__SETTINGS__CLIENTSECRET (env)" ∧
        c.blueprint_client_secret = "") ∨
      (lbl = "CONNECTIONS__SERVICE_CONNECTION__SETTINGS__TENANTID (env)" ∧
        c.tenant_id = "") ∨
      (lbl = "agent_identity_client_id (DB)" ∧ c.agent_identity_client_id = "") ∨
      (lbl = "agent_user_object_id (DB)" ∧ c.agent_user_object_id = "")) := by
  unfold AgentCredentials.validate AgentCredentials.fiveComplete
  constructor
  · by_cases h1 : c.blueprint_client_id = "" <;>
    by_cases h2 : c.blueprint_client_secret = "" <;>
    by_cases h3 : c.tenant_id = "" <;>
    by_cases h4 : c.agent_identity_client_id = "" <;>
    by_cases h5 : c.agent_user_object_id = "" <;>
    simp [h1, h2, h3, h4, h5]
  · intro lbl
    by_cases h1 : c.blueprint_client_id = "" <;>
    by_cases h2 : c.blueprint_client_secret = "" <;>
    by_cases h3 : c.tenant_id = "" <;>
    by_cases h4 : c.agent_identity_client_id = "" <;>
    by_cases h5 : c.agent_user_object_id = "" <;>
    simp [h1, h2, h3, h4, h5]

/-- C10: with incomplete credentials, `acquire_mcp_token` raises a
`RuntimeError` whose message names every missing field (the joined
`validate` list) and issues none of the three token-exchange requests —
the request trace is empty. -/
theorem acquire_mcp_token_validates_first (creds : AgentCredentials)
    (resp : HttpOracle) (h : creds.validate ≠ []) :
    (acquire_mcp_token creds resp).1 = [] ∧
    (acquire_mcp_token creds resp).2 =
      Except.error ("Cannot acquire token for " ++ creds.agent_user_id ++
        " – missing: " ++ String.intercalate ", " creds.validate) := by
  simp [acquire_mcp_token, h]

/-- C10 witness: a concrete bundle with every field empty is rejected with
the full five-label message before any request is issued. -/
theorem acquire_mcp_token_validates_first_witness :
    (acquire_mcp_token
      { agent_user_id := "", agent_identity_client_id := "",
        agent_user_object_id := "", blueprint_client_id := "",
        blueprint_client_secret := "", tenant_id := "", mcp_audience := "" }
      respFailT2).1 = [] ∧
    (acquire_mcp_token
      { agent_user_id := "", agent_identity_client_id := "",
        agent_user_object_id := "", blueprint_client_id := "",
        blueprint_client_secret := "", tenant_id := "", mcp_audience := "" }
      respFailT2).2 =
      Except.error ("Cannot acquire token for " ++ "" ++ " – missing: " ++
        String.intercalate ", " (AgentCredentials.validate
          { agent_user_id := "", agent_identity_client_id := "",
            agent_user_object_id := "", blueprint_client_id := "",
            blueprint_client_secret := "", tenant_id := "",
            mcp_audience := "" })) :=
  acquire_mcp_token_validates_first _ respFailT2 (by decide)

/-- C3: a step of the impersonation flow is requested only when every
earlier step returned HTTP 200, and a non-200 status at any step makes the
flow raise immediately with the provider's error text, with no later
request issued. -/
theorem token_exchange_short_circuit (resp : HttpOracle) :
    (Step.t2 ∈ (agent_user_impersonation_flow resp).1 →
      (resp Step.t1).status = 200) ∧
    (Step.mcp ∈ (agent_user_impersonation_flow resp).1 →
      (resp Step.t1).status = 200 ∧ (resp Step.t2).status = 200) ∧
    ((resp Step.t1).status ≠ 200 →
      (agent_user_impersonation_flow resp).1 = [Step.t1] ∧
      (agent_user_impersonation_flow resp).2 =
        Except.error ("T1 failed: " ++ (resp Step.t1).error_description)) ∧
    ((resp Step.t1).status = 200 → (resp Step.t2).status ≠ 200 →
      (agent_user_impersonation_flow resp).1 = [Step.t1, Step.t2] ∧
      (agent_user_impersonation_flow resp).2 =
        Except.error ("T2 failed: " ++ (resp Step.t2).error_description)) ∧
    ((resp Step.t1).status = 200 → (resp Step.t2).status = 200 →
      (resp Step.mcp).status ≠ 200 →
      (agent_user_impersonation_flow resp).1 = [Step.t1, Step.t2, Step.mcp] ∧
      (agent_user_impersonation_flow resp).2 =
        Except.error ("MCP token failed: " ++ (resp Step.mcp).error_description)) := by
  by_cases h1 : (resp Step.t1).status = 200 <;>
  by_cases h2 : (resp Step.t2).status = 200 <;>
  by_cases h3 : (resp Step.mcp).status = 200 <;>
  simp [agent_user_impersonation_flow, get_t1, get_t2, get_mcp_token, h1, h2, h3]

/-- C3 witness: under the concrete oracle where step 1 succeeds and step 2
returns HTTP 400, the flow issues exactly steps 1 and 2 and raises with
the provider's step-2 error text. -/
theorem token_exchange_short_circuit_witness :
    (agent_user_impersonation_flow respFailT2).1 = [Step.t1, Step.t2] ∧
    (agent_user_impersonation_flow respFailT2).2 =
      Except.error ("T2 failed: " ++ (respFailT2 Step.t2).error_description) :=
  (token_exchange_short_circuit respFailT2).2.2.2.1 rfl (by decide)

/-- C7: for a table whose keys are unique (the column is the primary
key), a `get_state` read strictly after a row's expiry instant returns
`none` even though the row is physically present, while a row with no
expiry or a still-future expiry yields its stored value. -/
theorem get_state_lazy_expiry (db : List StateRow) (key : String) (now : Nat)
    (r : StateRow) (hNodup : (db.map StateRow.key).Nodup) (hmem : r ∈ db)
    (hkey : r.key = key) :
    (∀ e, r.expires_at = some e → e < now → get_state key now db = none) ∧
    ((r.expires_at = none ∨ ∃ e, r.expires_at = some e ∧ now < e) →
      get_state key now db = some r.value) := by
  constructor
  · intro e he hlt
    unfold get_state
    have hfind : db.find? (fun x => decide (x.key = key) &&
        match x.expires_at with
        | none => true
        | some e2 => decide (now < e2)) = none := by
      rw [List.find?_eq_none]
      intro x hx hpx
      by_cases hxk : x.key = key
      · have hxr : x = r :=
          List.inj_on_of_nodup_map hNodup hx hmem (by rw [hxk, hkey])
        subst hxr
        rw [he] at hpx
        simp only [Bool.and_eq_true, decide_eq_true_eq] at hpx
        exact Nat.lt_asymm hlt hpx.2
      · simp [hxk] at hpx
    rw [hfind]
    rfl
  · intro h
    have hp : (fun x => decide (x.key = key) &&
        match x.expires_at with
        | none => true
        | some e2 => decide (now < e2)) r = true := by
      rcases h with hnone | ⟨e, he, hlt⟩
      · simp [hnone, hkey]
      · simp [he, hkey, hlt]
    have hsome : (db.find? (fun x => decide (x.key = key) &&
        match x.expires_at with
        | none => true
        | some e2 => decide (now < e2))).isSome :=
      List.find?_isSome.mpr ⟨r, hmem, hp⟩
    obtain ⟨x, hx⟩ := Option.isSome_iff_exists.mp hsome
    have hxmem := List.mem_of_find?_eq_some hx
    have hpx := List.find?_some hx
    have hxkey : x.key = key := by
      simp only [Bool.and_eq_true, decide_eq_true_eq] at hpx
      exact hpx.1
    have hxr : x = r :=
      List.inj_on_of_nodup_map hNodup hxmem hmem (by rw [hxkey, hkey])
    unfold get_state
    rw [hx, hxr]
    rfl

/-- C7 witness: a read at instant 11 of the row that expired at 10
returns `none` although the row is present, and a read at instant 9
returns the stored value. -/
theorem get_state_lazy_expiry_witness :
    get_state "k" 11 dbState = none ∧ get_state "k" 9 dbState = some "v" := by
  constructor
  · exact (get_state_lazy_expiry dbState "k" 11
      { key := "k", value := "v", owner_agent := "a@x.com", expires_at := some 10 }
      (by decide) (by decide) rfl).1 10 rfl (by decide)
  · exact (get_state_lazy_expiry dbState "k" 9
      { key := "k", value := "v", owner_agent := "a@x.com", expires_at := some 10 }
      (by decide) (by decide) rfl).2 (Or.inr ⟨10, rfl, by decide⟩)

/-- C6: after any run — successful or raised — the persisted row of the
executed task has its last-run timestamp set, a last status of `success`
or `error`, and a stored result of at most 2000 characters, the result
having been truncated before storage. -/
theorem execute_task_persisted_bounds (runResult : Except String String)
    (task_id : String) (now : Nat) (db : List SchedTaskRow) (r' : SchedTaskRow)
    (hmem : r' ∈ execute_task_persist runResult task_id now db)
    (hid : r'.task_id = task_id) :
    r'.last_run_at = some now ∧
    (r'.last_status = "success" ∨ r'.last_status = "error") ∧
    r'.last_result.length ≤ 2000 := by
  unfold execute_task_persist update_scheduled_task_result at hmem
  rw [List.mem_map] at hmem
  obtain ⟨r, hr, heq⟩ := hmem
  by_cases h : r.task_id = task_id
  · rw [if_pos h] at heq
    subst heq
    refine ⟨rfl, ?_, ?_⟩
    · cases runResult <;> simp [execute_task_outcome]
    · show (pyTruncate _ 2000).length ≤ 2000
      simp only [pyTruncate, String.length]
      exact List.length_take_le _ _
  · rw [if_neg h] at heq
    subst heq
    exact absurd hid h

/-- C6 witness: a raised execution (`Except.error "boom"`) still persists
a timestamped error row with a bounded result on the concrete table. -/
theorem execute_task_persisted_bounds_witness :
    ((execute_task_persist (Except.error "boom") "st-1" 7 dbSched).headI).last_run_at =
      some 7 ∧
    (((execute_task_persist (Except.error "boom") "st-1" 7 dbSched).headI).last_status =
        "success" ∨
      ((execute_task_persist (Except.error "boom") "st-1" 7 dbSched).headI).last_status =
        "error") ∧
    ((execute_task_persist (Except.error "boom") "st-1" 7 dbSched).headI).last_result.length ≤
      2000 :=
  execute_task_persisted_bounds (Except.error "boom") "st-1" 7 dbSched _
    (by decide) (by decide)

/-- Helper: the tick records one outcome per eligible agent, in query
order. -/
theorem tick_process_agents_fst (agents : List AgentRegistryRow)
    (proc : AgentRegistryRow → Except String Unit) :
    (tick_process_agents agents proc).map Prod.fst =
      agents.map AgentRegistryRow.agent_user_id := by
  induction agents with
  | nil => rfl
  | cons a rest ih => simp [tick_process_agents, ih]

/-- Helper: every eligible agent's outcome appears in the tick's record. -/
theorem tick_process_agents_mem (agents : List AgentRegistryRow)
    (proc : AgentRegistryRow → Except String Unit) (b : AgentRegistryRow)
    (hb : b ∈ agents) :
    (b.agent_user_id, proc b) ∈ tick_process_agents agents proc := by
  induction agents with
  | nil => cases hb
  | cons a rest ih =>
    rcases List.mem_cons.mp hb with rfl | hb'
    · exact List.mem_cons_self _ _
    · exact List.mem_cons_of_mem _ (ih hb')

/-- C1: an exception raised while processing agent `A` is caught at the
per-agent boundary: every other eligible agent `B` is still processed in
the same tick, and the tick's processing order is exactly the eligibility
query order. -/
theorem tick_per_agent_isolation (agents : List AgentRegistryRow)
    (proc : AgentRegistryRow → Except String Unit) (A B : AgentRegistryRow)
    (hA : A ∈ agents) (hB : B ∈ agents) (hAB : A ≠ B) (e : String)
    (herr : proc A = Except.error e) :
    (B.agent_user_id, proc B) ∈ tick_process_agents agents proc ∧
    (tick_process_agents agents proc).map Prod.fst =
      agents.map AgentRegistryRow.agent_user_id :=
  ⟨tick_process_agents_mem agents proc B hB, tick_process_agents_fst agents proc⟩

/-- C1 witness: with two eligible agents where processing the first
raises, the second is still processed and the tick covers both in order. -/
theorem tick_per_agent_isolation_witness :
    (agentRowB.agent_user_id, procFailA agentRowB) ∈
      tick_process_agents [agentRowA, agentRowB] procFailA ∧
    (tick_process_agents [agentRowA, agentRowB] procFailA).map Prod.fst =
      [agentRowA, agentRowB].map AgentRegistryRow.agent_user_id :=
  tick_per_agent_isolation [agentRowA, agentRowB] procFailA agentRowA agentRowB
    (List.mem_cons_self _ _) (List.mem_cons_of_mem _ (List.mem_cons_self _ _))
    (by decide) "boom" rfl

/-- Helper: once the running flag reads false it reads false at every
later check. -/
theorem running_false_of_le (running : Nat → Bool)
    (hmono : ∀ j, running j = false → running (j + 1) = false)
    {k j : Nat} (hk : running k = false) (hle : k ≤ j) : running j = false := by
  induction hle with
  | refl => exact hk
  | step _ ih => exact hmono _ ih

/-- Helper: the slice loop performs at most `k - i` sleeps once the flag
reads false at check `k`. -/
theorem sleep_slices_le (running : Nat → Bool)
    (hmono : ∀ j, running j = false → running (j + 1) = false)
    (k : Nat) (hk : running k = false) :
    ∀ fuel i, sleep_slices fuel running i ≤ k - i := by
  intro fuel
  induction fuel with
  | zero => intro i; simp [sleep_slices]
  | succ f ih =>
    intro i
    unfold sleep_slices
    by_cases hri : running i = true
    · rw [if_pos hri]
      have hik : i < k := by
        by_contra hik
        push_neg at hik
        have hfalse := running_false_of_le running hmono hk hik
        rw [hfalse] at hri
        cases hri
      have hstep := ih (i + 1)
      omega
    · rw [if_neg hri]
      exact Nat.zero_le _

/-- Helper: when the slice loop stops before exhausting its fuel, the
flag reads false at the check where it stopped. -/
theorem sleep_slices_exit_flag (running : Nat → Bool) :
    ∀ fuel i, sleep_slices fuel running i < fuel →
      running (i + sleep_slices fuel running i) = false := by
  intro fuel
  induction fuel with
  | zero => intro i h; omega
  | succ f ih =>
    intro i h
    by_cases hri : running i = true
    · have hrw : sleep_slices (f + 1) running i = 1 + sleep_slices f running (i + 1) := by
        have heq : sleep_slices (f + 1) running i =
            if running i = true then 1 + sleep_slices f running (i + 1) else 0 := rfl
        rw [heq, if_pos hri]
      rw [hrw] at h ⊢
      have h' : sleep_slices f running (i + 1) < f := by omega
      have hto := ih (i + 1) h'
      have harith : i + (1 + sleep_slices f running (i + 1)) =
          (i + 1) + sleep_slices f running (i + 1) := by omega
      rw [harith]
      exact hto
    · have hrw : sleep_slices (f + 1) running i = 0 := by
        have heq : sleep_slices (f + 1) running i =
            if running i = true then 1 + sleep_slices f running (i + 1) else 0 := rfl
        rw [heq, if_neg hri]
      rw [hrw]
      simp only [Nat.add_zero]
      exact Bool.eq_false_iff.mpr (fun hc => hri hc)

/-- C9: if `stop()` clears the running flag while `start()` is inside its
inter-tick sleep (the flag reads false at check `k`, before the interval
is exhausted, and stays false), the loop sleeps at most `k` whole
one-second slices — at most one slice beyond the stop — and the check at
which it exits reads the cleared flag, which is the same flag the `while`
guard re-reads, so `start()` returns instead of sleeping the rest of the
configured interval. -/
theorem stop_responsive_sleep (interval k : Nat) (running : Nat → Bool)
    (hmono : ∀ j, running j = false → running (j + 1) = false)
    (hk : running k = false) (hkin : k < interval) :
    start_sleep interval running ≤ k ∧
    running (start_sleep interval running) = false := by
  have h1 : start_sleep interval running ≤ k := by
    have hle := sleep_slices_le running hmono k hk interval 0
    simpa [start_sleep] using hle
  refine ⟨h1, ?_⟩
  have hlt : start_sleep interval running < interval := Nat.lt_of_le_of_lt h1 hkin
  have hexit := sleep_slices_exit_flag running interval 0
    (by simpa [start_sleep] using hlt)
  simpa [start_sleep] using hexit

/-- C9 witness: with a 5-second interval and the flag cleared during the
second slice, the loop sleeps at most 2 slices and exits on a cleared
flag. -/
theorem stop_responsive_sleep_witness :
    start_sleep 5 runFlagEx ≤ 2 ∧ runFlagEx (start_sleep 5 runFlagEx) = false := by
  have hmono : ∀ j, runFlagEx j = false → runFlagEx (j + 1) = false := by
    intro j hj
    simp only [runFlagEx, decide_eq_false_iff_not] at hj ⊢
    omega
  exact stop_responsive_sleep 5 2 runFlagEx hmono (by decide) (by decide)

/-- Helper: the first component of `dequeue_tasks`, computed. -/
theorem dequeue_tasks_fst (t : String) (l now : Nat) (db : List QueueRow) :
    (dequeue_tasks t l now db).1 =
      (dequeue_select t l db).map
        (fun r => { r with status := "in_progress", updated_at := now }) := rfl

/-- Helper: the second component of `dequeue_tasks`, computed. -/
theorem dequeue_tasks_snd (t : String) (l now : Nat) (db : List QueueRow) :
    (dequeue_tasks t l now db).2 =
      db.map (fun r =>
        if r.id ∈ (dequeue_select t l db).map QueueRow.id then
          { r with status := "in_progress", updated_at := now }
        else r) := rfl

/-- Helper: every row the subquery selects is a pending row of the table
addressed to the target agent. -/
theorem dequeue_select_spec (t : String) (l : Nat) (db : List QueueRow) :
    ∀ r ∈ dequeue_select t l db,
      r ∈ db ∧ r.target_agent = t ∧ r.status = "pending" := by
  intro r hr
  unfold dequeue_select at hr
  have hr2 := List.mem_of_mem_take hr
  rw [List.mem_insertionSort, List.mem_filter] at hr2
  obtain ⟨hmem, hpred⟩ := hr2
  simp only [decide_eq_true_eq] at hpred
  exact ⟨hmem, hpred.1, hpred.2⟩

/-- Helper: the subquery's result is ordered by `created_at` ascending. -/
theorem dequeue_select_sorted (t : String) (l : Nat) (db : List QueueRow) :
    List.Sorted (fun a b => a.created_at ≤ b.created_at)
      (dequeue_select t l db) := by
  unfold dequeue_select
  exact List.Pairwise.sublist (List.take_sublist _ _)
    (List.sorted_insertionSort _ _)

/-- C2: two `dequeue_tasks` calls for the same target agent — which the
database serializes, each being one atomic statement — never return a row
to both callers; each returned row was pending in the table the call saw,
is marked in-progress in the table the call leaves, and each call returns
at most `limit` rows, oldest `created_at` first. -/
theorem dequeue_tasks_atomic (db : List QueueRow) (target : String)
    (limit : Nat) (now now2 : Nat) :
    (∀ r1 ∈ (dequeue_tasks target limit now db).1,
     ∀ r2 ∈ (dequeue_tasks target limit now2
        (dequeue_tasks target limit now db).2).1,
       r1.id ≠ r2.id) ∧
    (∀ r ∈ (dequeue_tasks target limit now db).1,
       r.status = "in_progress" ∧
       ∃ s ∈ db, s.status = "pending" ∧ s.target_agent = target ∧
         s.id = r.id ∧ s.created_at = r.created_at) ∧
    (∀ s' ∈ (dequeue_tasks target limit now db).2,
       s'.id ∈ (dequeue_tasks target limit now db).1.map QueueRow.id →
       s'.status = "in_progress") ∧
    (dequeue_tasks target limit now db).1.length ≤ limit ∧
    List.Sorted (fun a b => a.created_at ≤ b.created_at)
      (dequeue_tasks target limit now db).1 := by
  refine ⟨?_, ?_, ?_, ?_, ?_⟩
  · intro r1 h1 r2 h2 heq
    rw [dequeue_tasks_fst] at h1 h2
    obtain ⟨s1, hs1, rfl⟩ := List.mem_map.mp h1
    obtain ⟨s2, hs2, rfl⟩ := List.mem_map.mp h2
    have hid : s1.id = s2.id := heq
    obtain ⟨hmem2, -, hpend2⟩ := dequeue_select_spec target limit _ s2 hs2
    rw [dequeue_tasks_snd] at hmem2
    obtain ⟨s, hs, hseq⟩ := List.mem_map.mp hmem2
    by_cases hin : s.id ∈ (dequeue_select target limit db).map QueueRow.id
    · rw [if_pos hin] at hseq
      rw [← hseq] at hpend2
      have hcontra : ("in_progress" : String) = "pending" := hpend2
      exact absurd hcontra (by decide)
    · rw [if_neg hin] at hseq
      subst hseq
      have hid1 : s1.id ∈ (dequeue_select target limit db).map QueueRow.id :=
        List.mem_map_of_mem QueueRow.id hs1
      rw [hid] at hid1
      exact hin hid1
  · intro r hr
    rw [dequeue_tasks_fst] at hr
    obtain ⟨s, hs, rfl⟩ := List.mem_map.mp hr
    have hspec := dequeue_select_spec target limit db s hs
    exact ⟨rfl, s, hspec.1, hspec.2.2, hspec.2.1, rfl, rfl⟩
  · intro s' hs' hid
    rw [dequeue_tasks_snd] at hs'
    obtain ⟨s, hs, hseq⟩ := List.mem_map.mp hs'
    have hids : (dequeue_tasks target limit now db).1.map QueueRow.id =
        (dequeue_select target limit db).map QueueRow.id := by
      rw [dequeue_tasks_fst, List.map_map]
      rfl
    rw [hids] at hid
    by_cases hin : s.id ∈ (dequeue_select target limit db).map QueueRow.id
    · rw [if_pos hin] at hseq
      rw [← hseq]
    · rw [if_neg hin] at hseq
      subst hseq
      exact absurd hid hin
  · rw [dequeue_tasks_fst, List.length_map]
    unfold dequeue_select
    exact List.length_take_le _ _
  · rw [dequeue_tasks_fst]
    exact List.pairwise_map.mpr (dequeue_select_sorted target limit db)

/-- C2 witness: on the concrete two-row queue with limit 1, the first
call claims the older row and the serialized second call claims the
other; the theorem yields that the two claimed rows differ. -/
theorem dequeue_tasks_atomic_witness :
    ((dequeue_tasks "b@x.com" 1 5 dbQ).1.headI).id ≠
      ((dequeue_tasks "b@x.com" 1 6 (dequeue_tasks "b@x.com" 1 5 dbQ).2).1.headI).id := by
  have h := (dequeue_tasks_atomic dbQ "b@x.com" 1 5 6).1
  exact h _ (by decide) _ (by decide)

/-- C5 counterexample: one pending row is claimed (moving it forward to
in-progress), then `complete_task` is invoked with the status argument
`"pending"`; the row's status moves backward from in-progress to pending,
because `complete_task` overwrites the status unconditionally without
inspecting the current one. -/
theorem status_forward_counterexample :
    (dequeue_tasks "b@x.com" 10 5 dbC5).2.map QueueRow.status = ["in_progress"] ∧
    (complete_task "t-1" "pending" "" 6
        ((dequeue_tasks "b@x.com" 10 5 dbC5).2)).map QueueRow.status = ["pending"] ∧
    ¬ forwardStep "in_progress" "pending" :=
  ⟨by decide, by decide, by decide⟩

/-- C5 (amended): for a table with unique ids (the serial primary key),
`enqueue_task` only adds rows in status pending, `dequeue_tasks` moves
every row it touches forward (pending → in-progress) and leaves the rest
unchanged, and `complete_task` moves the matched rows forward provided
its status argument is `completed` or `failed` and the matched rows are
not already terminal; `complete_task` itself performs an unconditional
overwrite, so forward-only movement is not guaranteed for other
arguments. -/
theorem status_forward_amended (db : List QueueRow)
    (hNodup : (db.map QueueRow.id).Nodup) :
    (∀ target limit now,
      List.Forall₂ (fun r r' => forwardStep r.status r'.status)
        db (dequeue_tasks target limit now db).2) ∧
    (∀ task_id status result now,
      (status = "completed" ∨ status = "failed") →
      (∀ r ∈ db, r.task_id = task_id →
        (r.status = "pending" ∨ r.status = "in_progress")) →
      List.Forall₂ (fun r r' => forwardStep r.status r'.status)
        db (complete_task task_id status result now db)) ∧
    (∀ id task_id src tgt ty pl now,
      ∀ r ∈ enqueue_task id task_id src tgt ty pl now db,
        r ∈ db ∨ r.status = "pending") := by
  refine ⟨?_, ?_, ?_⟩
  · intro target limit now
    rw [dequeue_tasks_snd, List.forall₂_map_right_iff, List.forall₂_same]
    intro r hr
    by_cases hin : r.id ∈ (dequeue_select target limit db).map QueueRow.id
    · rw [if_pos hin]
      obtain ⟨s, hssel, hsid⟩ := List.mem_map.mp hin
      obtain ⟨hsdb, -, hspend⟩ := dequeue_select_spec target limit db s hssel
      have hsr : s = r := List.inj_on_of_nodup_map hNodup hsdb hr hsid
      subst hsr
      rw [hspend]
      exact Or.inr (Or.inl ⟨rfl, rfl⟩)
    · rw [if_neg hin]
      exact Or.inl rfl
  · intro task_id status result now hstat hcur
    unfold complete_task
    rw [List.forall₂_map_right_iff, List.forall₂_same]
    intro r hr
    by_cases hmatch : r.task_id = task_id
    · rw [if_pos hmatch]
      rcases hcur r hr hmatch with hp | hp <;> rw [hp] <;>
        rcases hstat with hs | hs <;> rw [hs]
      · exact Or.inr (Or.inr (Or.inl ⟨rfl, Or.inl rfl⟩))
      · exact Or.inr (Or.inr (Or.inl ⟨rfl, Or.inr rfl⟩))
      · exact Or.inr (Or.inr (Or.inr ⟨rfl, Or.inl rfl⟩))
      · exact Or.inr (Or.inr (Or.inr ⟨rfl, Or.inr rfl⟩))
    · rw [if_neg hmatch]
      exact Or.inl rfl
  · intro id task_id src tgt ty pl now r hr
    unfold enqueue_task at hr
    rcases List.mem_append.mp hr with hdb | hnew
    · exact Or.inl hdb
    · rcases List.mem_singleton.mp hnew with rfl
      exact Or.inr rfl

/-- C5 (amended) witness: on the concrete one-row queue, a dequeue
followed by a well-formed completion moves the row strictly forward at
each step. -/
theorem status_forward_amended_witness :
    List.Forall₂ (fun r r' => forwardStep r.status r'.status)
      dbC5 (dequeue_tasks "b@x.com" 10 5 dbC5).2 ∧
    List.Forall₂ (fun r r' => forwardStep r.status r'.status)
      dbC5 (complete_task "t-1" "completed" "" 6 dbC5) := by
  constructor
  · exact (status_forward_amended dbC5 (by decide)).1 "b@x.com" 10 5
  · exact (status_forward_amended dbC5 (by decide)).2.1 "t-1" "completed" "" 6
      (Or.inl rfl) (by decide)

/-- C8 counterexample: a template whose (unrecognized) replacement field
is positional makes `str.format` raise `IndexError`, which
`_render_task_prompt` does not catch — rendering fails instead of
returning the raw template. -/
theorem render_positional_counterexample :
    render_task_prompt "Summarize item {0}" "m@x.com" "a@x.com"
      "2026-01-01T00:00:00+00:00" = Except.error FmtError.indexError := rfl

/-- C8 (amended): rendering substitutes the fixed placeholder set, and a
template whose unrecognized placeholder is a simple *named* field is
tolerated by returning the raw template text; but rendering can still
fail — exactly with `IndexError` (a positional/empty field) or
`ValueError` (an unmatched brace), which the `except KeyError` handler
does not cover. -/
theorem render_unrecognized_named_tolerated (t m u ts : String) :
    (render_task_prompt "{manager_email}" m u ts = Except.ok m ∧
     render_task_prompt "{target_email}" m u ts = Except.ok m ∧
     render_task_prompt "{agent_upn}" m u ts = Except.ok u ∧
     render_task_prompt "{timestamp}" m u ts = Except.ok ts) ∧
    (∀ k, py_format t (render_kwargs m u ts) =
        Except.error (FmtError.keyError k) →
      render_task_prompt t m u ts = Except.ok t) ∧
    (∀ r, py_format t (render_kwargs m u ts) = Except.ok r →
      render_task_prompt t m u ts = Except.ok r) ∧
    (∀ e, render_task_prompt t m u ts = Except.error e →
      (e = FmtError.indexError ∨ e = FmtError.valueError)) := by
  refine ⟨⟨?_, ?_, ?_, ?_⟩, ?_, ?_, ?_⟩
  · show Except.ok (m ++ "") = Except.ok m
    rw [String.append_empty]
  · show Except.ok (m ++ "") = Except.ok m
    rw [String.append_empty]
  · show Except.ok (u ++ "") = Except.ok u
    rw [String.append_empty]
  · show Except.ok (ts ++ "") = Except.ok ts
    rw [String.append_empty]
  · intro k hk
    unfold render_task_prompt
    rw [hk]
  · intro r hr
    unfold render_task_prompt
    rw [hr]
  · intro e he
    unfold render_task_prompt at he
    rcases hres : py_format t (render_kwargs m u ts) with err | r
    · rw [hres] at he
      cases err with
      | keyError k => cases he
      | indexError =>
        have h : FmtError.indexError = e := Except.error.inj he
        exact Or.inl h.symm
      | valueError =>
        have h : FmtError.valueError = e := Except.error.inj he
        exact Or.inr h.symm
    · rw [hres] at he
      cases he

/-- C8 (amended) witness: an unknown *named* placeholder is tolerated —
the raw template comes back unchanged. -/
theorem render_unrecognized_named_tolerated_witness :
    render_task_prompt "Ping {foo}" "m@x.com" "a@x.com" "ts" =
      Except.ok "Ping {foo}" :=
  (render_unrecognized_named_tolerated "Ping {foo}" "m@x.com" "a@x.com" "ts").2.1
    "foo" rfl

end A365
